import Mathlib

/-!
Verification of the florilegium reading-statistics dashboard.

Shallow embedding of the computational core of `src/app/page.tsx`
(pacing calculator, annual reading forecast, TBR randomizer) and of the
two GET handlers in `src/app/api/refresh/route.ts`. JavaScript numbers
are modelled as rationals; `Math.ceil`, `Math.floor` and `Math.round`
as the corresponding integer-valued functions on rationals.
-/

namespace Florilegium

/-- JavaScript `Math.floor` on a rational, written over the numerator
and denominator so the kernel can evaluate it. -/
def jsFloor (q : ℚ) : ℤ := q.num / (q.den : ℤ)

/-- JavaScript `Math.ceil` on a rational. -/
def jsCeil (q : ℚ) : ℤ := -jsFloor (-q)

/-- JavaScript `Math.round` on a rational: floor of `q + 1/2`. -/
def jsRound (q : ℚ) : ℤ := jsFloor (q + 1/2)

theorem jsFloor_eq (q : ℚ) : jsFloor q = ⌊q⌋ := Rat.floor_def.symm

theorem jsCeil_eq (q : ℚ) : jsCeil q = ⌈q⌉ := by
  rw [jsCeil, jsFloor_eq, Int.floor_neg, neg_neg]

theorem jsRound_eq (q : ℚ) : jsRound q = ⌊q + 1/2⌋ := jsFloor_eq _

/-- Milliseconds per day, the divisor `1000 * 60 * 60 * 24` from
`calculatePacing` (page.tsx line 741). -/
def msPerDay : ℚ := 1000 * 60 * 60 * 24

/-- A book as used by the pacing calculator and the `currentlyReading`
list: title, author, total page count and optional progress. -/
structure Book where
  title : String
  author : String
  totalPages : ℚ
  progress : Option ℚ := none
deriving DecidableEq

/-- The result object built by `calculatePacing` (page.tsx lines 747-754).
`goalDate` formatting is presentation-only and omitted. -/
structure PacingResult where
  daysRemaining : ℤ
  pagesRemaining : ℚ
  pagesPerDay : ℚ
  isRealistic : Bool
  isEasy : Bool
deriving DecidableEq

/-- `daysRemaining` as computed at page.tsx line 741:
`Math.ceil((goal - today) / (1000*60*60*24))`, times in milliseconds. -/
def daysRemainingOf (goalMs todayMs : ℤ) : ℤ :=
  jsCeil (((goalMs : ℚ) - (todayMs : ℚ)) / msPerDay)

/-- `calculatePacing` from page.tsx lines 733-755. The selected book is
`none` when no book matches the selector; `goalDateObj` is `none` when
`getGoalDate()` returns null (custom timeframe with empty date). -/
def calculatePacing (selectedBookData : Option Book) (currentPage : ℚ)
    (goalDateObj : Option ℤ) (todayMs : ℤ) : Option PacingResult :=
  match selectedBookData with
  | none => none
  | some book =>
    if currentPage ≤ 0 ∨ book.totalPages ≤ currentPage then none
    else
      match goalDateObj with
      | none => none
      | some goalMs =>
        let daysRemaining := daysRemainingOf goalMs todayMs
        if daysRemaining ≤ 0 then none
        else
          let pagesRemaining := book.totalPages - currentPage
          let pagesPerDay := pagesRemaining / (daysRemaining : ℚ)
          some { daysRemaining := daysRemaining
                 pagesRemaining := pagesRemaining
                 pagesPerDay := pagesPerDay
                 isRealistic := decide (pagesPerDay ≤ 50)
                 isEasy := decide (pagesPerDay ≤ 20) }

/-- The three displayed pacing bands (page.tsx lines 862-863). -/
inductive PacingBand
  | easy
  | challenging
  | ambitious
deriving DecidableEq

/-- The band displayed for a pacing result, following the conditional at
page.tsx lines 862-863: `isEasy ? Easy : isRealistic ? Challenging :
Ambitious`. -/
def bandOf (res : PacingResult) : PacingBand :=
  if res.isEasy then .easy
  else if res.isRealistic then .challenging
  else .ambitious

/-- Year-to-date (or last-year) totals: `{ books, pages }`. -/
structure Totals where
  books : ℚ
  pages : ℚ
deriving DecidableEq

/-- The quantities computed by `AnnualReadingForecast`
(page.tsx lines 885-922). -/
structure ForecastResult where
  booksPerMonth : ℚ
  pagesPerMonth : ℚ
  estimatedBooks : ℤ
  estimatedPages : ℤ
  averageBookLength : ℚ
  estimatedBooksFromPages : ℤ
deriving DecidableEq

/-- `averageBookLength` from page.tsx line 921:
`(totals?.books > 0 && totals?.pages) ? pages / books : 320`; JavaScript
truthiness of `pages` is `pages ≠ 0`. -/
def averageBookLengthOf (totals : Totals) : ℚ :=
  if 0 < totals.books ∧ totals.pages ≠ 0 then totals.pages / totals.books
  else 320

/-- The computation of `AnnualReadingForecast` (page.tsx lines 885-922).
`currentMonth` is `getMonth() + 1`, in `1..12`; `lastYearTotals` is the
optional snapshot field, with `?.books || 0` read as `getD 0`. -/
def annualReadingForecast (currentMonth : ℕ) (totals : Totals)
    (lastYearTotals : Option Totals) : ForecastResult :=
  let completedMonths : ℚ := (currentMonth : ℚ) - 1
  let monthsRemaining : ℚ := 12 - (currentMonth : ℚ)
  let averageBookLength := averageBookLengthOf totals
  if currentMonth = 1 then
    let lastYearBooks : ℚ := (lastYearTotals.map Totals.books).getD 0
    let lastYearPages : ℚ := (lastYearTotals.map Totals.pages).getD 0
    let booksPerMonth := lastYearBooks / 12
    let pagesPerMonth := lastYearPages / 12
    let estimatedBooks := jsRound (booksPerMonth * 12)
    let estimatedPages := jsRound (pagesPerMonth * 12)
    { booksPerMonth := booksPerMonth
      pagesPerMonth := pagesPerMonth
      estimatedBooks := estimatedBooks
      estimatedPages := estimatedPages
      averageBookLength := averageBookLength
      estimatedBooksFromPages :=
        jsRound ((estimatedPages : ℚ) / averageBookLength) }
  else
    let booksPerMonth :=
      if 0 < completedMonths then totals.books / completedMonths else 0
    let pagesPerMonth :=
      if 0 < completedMonths then totals.pages / completedMonths else 0
    let estimatedBooks := jsRound (totals.books + booksPerMonth * monthsRemaining)
    let estimatedPages := jsRound (totals.pages + pagesPerMonth * monthsRemaining)
    { booksPerMonth := booksPerMonth
      pagesPerMonth := pagesPerMonth
      estimatedBooks := estimatedBooks
      estimatedPages := estimatedPages
      averageBookLength := averageBookLength
      estimatedBooksFromPages :=
        jsRound ((estimatedPages : ℚ) / averageBookLength) }

/-- An entry of the to-be-read list: `{ title, author, genre }`. -/
structure TBRBook where
  title : String
  author : String
  genre : String
deriving DecidableEq

/-- The state update performed by `pickRandomBook` (page.tsx lines
983-997) once the timeout fires: for an empty list return early leaving
the selection as it was; otherwise select index
`Math.floor(Math.random() * tbrList.length)`, with the random draw `r`
made explicit. -/
def pickRandomBook (r : ℚ) (tbrList : List TBRBook)
    (selected : Option TBRBook) : Option TBRBook :=
  if tbrList.length = 0 then selected
  else tbrList[(jsFloor (r * (tbrList.length : ℚ))).toNat]?

/-- One record of `byMonth`: `{ month, count, pages }`. -/
structure MonthRecord where
  month : String
  count : ℚ
  pages : ℚ
deriving DecidableEq

/-- `readingStats.fastestRead`: `{ pages, days }`. -/
structure FastestRead where
  pages : ℚ
  days : ℚ
deriving DecidableEq

/-- The precomputed `readingStats` block of the snapshot. -/
structure ReadingStats where
  pagesPerDay : ℚ
  pagesPerWeek : ℚ
  pagesPerMonth : ℚ
  averageBookLength : ℚ
  fastestRead : FastestRead
  longestBook : ℚ
deriving DecidableEq

/-- A goal pair `{ current, target }`. -/
structure GoalPair where
  current : ℚ
  target : ℚ
deriving DecidableEq

/-- Goals for one unit (books or pages): annual and monthly pairs. -/
structure GoalScope where
  annual : GoalPair
  monthly : GoalPair
deriving DecidableEq

/-- The `goals` block of the snapshot. -/
structure Goals where
  books : GoalScope
  pages : GoalScope
deriving DecidableEq

/-- A `{ name, count }` entry of `topGenres` or `topAuthors`. -/
structure NameCount where
  name : String
  count : ℚ
deriving DecidableEq

/-- An entry of `longestBooksByGenre`. -/
structure LongestByGenre where
  genre : String
  title : String
  author : String
  pages : ℚ
deriving DecidableEq

/-- An entry of `consistentGenres` or `consistentAuthors`. -/
structure ConsistentItem where
  name : String
  currentYear : ℚ
  pastYears : ℚ
  totalBooks : ℚ
deriving DecidableEq

/-- An entry of `longestBooksByAuthor`. -/
structure LongestByAuthor where
  author : String
  title : String
  pages : ℚ
deriving DecidableEq

/-- The snapshot object (the `Overview` type of page.tsx lines 5-36,
which is also the shape of the mock payload in route.ts). -/
structure Snapshot where
  totals : Totals
  byMonth : List MonthRecord
  readingStats : ReadingStats
  goals : Goals
  currentlyReading : List Book
  topGenres : List NameCount
  topAuthors : List NameCount
  lastYearTotals : Option Totals
  currentYearStart : Option String
  longestBooksByGenre : List LongestByGenre
  consistentGenres : List ConsistentItem
  consistentAuthors : List ConsistentItem
  longestBooksByAuthor : List LongestByAuthor
  tbrList : List TBRBook
deriving DecidableEq

/-- The hardcoded fallback `mockData` of route.ts variant B
(lines 60-189). -/
def mockData : Snapshot where
  totals := { books := 43, pages := 13760 }
  byMonth :=
    [ { month := "Jan", count := 4, pages := 1280 },
      { month := "Feb", count := 3, pages := 960 },
      { month := "Mar", count := 5, pages := 1600 },
      { month := "Apr", count := 4, pages := 1280 },
      { month := "May", count := 6, pages := 1920 },
      { month := "Jun", count := 5, pages := 1600 },
      { month := "Jul", count := 7, pages := 2240 },
      { month := "Aug", count := 6, pages := 1920 },
      { month := "Sep", count := 3, pages := 960 },
      { month := "Oct", count := 0, pages := 0 },
      { month := "Nov", count := 0, pages := 0 },
      { month := "Dec", count := 0, pages := 0 } ]
  readingStats :=
    { pagesPerDay := 50
      pagesPerWeek := 350
      pagesPerMonth := 1529
      averageBookLength := 320
      fastestRead := { pages := 400, days := 2 }
      longestBook := 850 }
  goals :=
    { books :=
        { annual := { current := 43, target := 60 }
          monthly := { current := 3, target := 5 } }
      pages :=
        { annual := { current := 13760, target := 20000 }
          monthly := { current := 960, target := 1500 } } }
  currentlyReading :=
    [ { title := "The Seven Husbands of Evelyn Hugo",
        author := "Taylor Jenkins Reid", totalPages := 400, progress := some 65 },
      { title := "Project Hail Mary",
        author := "Andy Weir", totalPages := 500, progress := some 30 },
      { title := "The Way of Kings",
        author := "Brandon Sanderson", totalPages := 1007, progress := some 15 } ]
  topGenres :=
    [ { name := "Fantasy", count := 5 },
      { name := "Mystery", count := 3 },
      { name := "Romance", count := 2 },
      { name := "Sci-Fi", count := 2 },
      { name := "Thriller", count := 2 },
      { name := "Historical Fiction", count := 1 } ]
  topAuthors :=
    [ { name := "Brandon Sanderson", count := 3 },
      { name := "Agatha Christie", count := 2 },
      { name := "Jane Austen", count := 2 },
      { name := "Isaac Asimov", count := 1 },
      { name := "Neil Gaiman", count := 1 },
      { name := "Ursula K. Le Guin", count := 1 } ]
  lastYearTotals := some { books := 52, pages := 16640 }
  currentYearStart := some "2024-01-01"
  longestBooksByGenre :=
    [ { genre := "Fantasy", title := "The Way of Kings",
        author := "Brandon Sanderson", pages := 1007 },
      { genre := "Mystery", title := "The Murder of Roger Ackroyd",
        author := "Agatha Christie", pages := 320 },
      { genre := "Romance", title := "Pride and Prejudice",
        author := "Jane Austen", pages := 432 } ]
  consistentGenres :=
    [ { name := "Fantasy", currentYear := 5, pastYears := 6, totalBooks := 11 },
      { name := "Mystery", currentYear := 3, pastYears := 4, totalBooks := 7 },
      { name := "Romance", currentYear := 2, pastYears := 3, totalBooks := 5 } ]
  consistentAuthors :=
    [ { name := "Brandon Sanderson", currentYear := 3, pastYears := 4, totalBooks := 7 },
      { name := "Agatha Christie", currentYear := 2, pastYears := 3, totalBooks := 5 },
      { name := "Jane Austen", currentYear := 2, pastYears := 2, totalBooks := 4 } ]
  longestBooksByAuthor :=
    [ { author := "Brandon Sanderson", title := "The Way of Kings", pages := 1007 },
      { author := "Agatha Christie", title := "The Murder of Roger Ackroyd", pages := 320 },
      { author := "Jane Austen", title := "Pride and Prejudice", pages := 432 } ]
  tbrList :=
    [ { title := "The Midnight Library", author := "Matt Haig", genre := "Fiction" },
      { title := "Circe", author := "Madeline Miller", genre := "Fantasy" },
      { title := "The Seven Husbands of Evelyn Hugo",
        author := "Taylor Jenkins Reid", genre := "Historical Fiction" },
      { title := "Project Hail Mary", author := "Andy Weir", genre := "Sci-Fi" },
      { title := "The Way of Kings", author := "Brandon Sanderson", genre := "Fantasy" },
      { title := "Dune", author := "Frank Herbert", genre := "Sci-Fi" },
      { title := "The Silent Patient", author := "Alex Michaelides", genre := "Thriller" },
      { title := "Educated", author := "Tara Westover", genre := "Memoir" },
      { title := "The Book Thief", author := "Markus Zusak", genre := "Historical Fiction" },
      { title := "The Night Circus", author := "Erin Morgenstern", genre := "Fantasy" },
      { title := "Where the Crawdads Sing", author := "Delia Owens", genre := "Fiction" },
      { title := "The Alchemist", author := "Paulo Coelho", genre := "Fiction" } ]

/-- State of a candidate file on disk: missing, or present with contents
that fail to read or JSON-parse, or present with a parsed snapshot. -/
inductive FileContent
  | absent
  | malformed
  | parsed (d : Snapshot)
deriving DecidableEq

/-- A filesystem: what each path holds. -/
def FileSystem : Type := String → FileContent

/-- The path checked first by both GET variants:
`path.join(process.cwd(), 'public', 'structured_reading_data.json')`. -/
def publicPath : String := "public/structured_reading_data.json"

/-- The second path checked by both GET variants:
`path.join(process.cwd(), 'data', 'structured_reading_data.json')`. -/
def dataPath : String := "data/structured_reading_data.json"

/-- The third path of GET variant B:
`path.join(process.cwd(), '..', 'data', 'structured_reading_data.json')`. -/
def parentDataPath : String := "../data/structured_reading_data.json"

/-- The candidate list of variant A (route.ts lines 8 and 16). -/
def pathsA : List String := [publicPath, dataPath]

/-- `possiblePaths` of variant B (route.ts lines 37-41). -/
def possiblePaths : List String := [publicPath, dataPath, parentDataPath]

/-- A `NextResponse.json(...)` value: a snapshot body or an error body,
each with a status code. -/
inductive ApiResponse
  | jsonData (d : Snapshot) (status : ℕ)
  | jsonError (msg : String) (status : ℕ)
deriving DecidableEq

/-- HTTP status of a response. -/
def statusOf : ApiResponse → ℕ
  | .jsonData _ s => s
  | .jsonError _ s => s

/-- `GET` variant A (route.ts lines 5-29): try the public path, then the
data path; a read/parse throw is caught and answered with status 500;
neither file present is answered with status 404. -/
def getA (fs : FileSystem) : ApiResponse :=
  match fs publicPath with
  | .parsed d => .jsonData d 200
  | .malformed => .jsonError "Failed to load reading data" 500
  | .absent =>
    match fs dataPath with
    | .parsed d => .jsonData d 200
    | .malformed => .jsonError "Failed to load reading data" 500
    | .absent => .jsonError "No reading data found" 404

/-- Contents of the first existing candidate path, or `none` when every
candidate is absent (the `fs.existsSync` loop of variant B). -/
def tryPaths (fs : FileSystem) : List String → Option FileContent
  | [] => none
  | p :: rest =>
    match fs p with
    | .absent => tryPaths fs rest
    | c => some c

/-- `GET` variant B (route.ts lines 34-192): return the first existing
candidate, parsed; a read/parse throw is caught, leaves the try block,
and falls through to the mock payload, exactly as when no candidate
exists. -/
def getB (fs : FileSystem) : ApiResponse :=
  match tryPaths fs possiblePaths with
  | some (.parsed d) => .jsonData d 200
  | _ => .jsonData mockData 200

/-- Client-side state: the fetched snapshot held by `Home` plus the
component-local state of `PacingCalculator` and `TBRRandomizer`. -/
structure UIState where
  snapshot : Option Snapshot
  pacingSelectedBook : String
  pacingCurrentPage : ℚ
  pacingGoalDate : Option ℤ
  tbrSelected : Option TBRBook
  tbrSpinning : Bool
deriving DecidableEq

/-- The book-selector `onChange` of `PacingCalculator` (page.tsx lines
768-771): set the selected title and reset the current page to 0. -/
def selectBookOp (title : String) (s : UIState) : UIState :=
  { s with pacingSelectedBook := title, pacingCurrentPage := 0 }

/-- The current-page input `onChange` (page.tsx line 798). -/
def setCurrentPageOp (p : ℚ) (s : UIState) : UIState :=
  { s with pacingCurrentPage := p }

/-- The custom goal-date `onChange` (page.tsx line 838), the date kept
as epoch milliseconds. -/
def setGoalDateOp (g : Option ℤ) (s : UIState) : UIState :=
  { s with pacingGoalDate := g }

/-- One completed `pickRandomBook` click of `TBRRandomizer` (page.tsx
lines 983-997): selection updated from the snapshot's `tbrList`,
spinning reset; with no snapshot the component is not rendered. -/
def spinTBROp (r : ℚ) (s : UIState) : UIState :=
  match s.snapshot with
  | none => s
  | some snap =>
    { s with tbrSelected := pickRandomBook r snap.tbrList s.tbrSelected
             tbrSpinning := false }

/-- Rendering `PacingCalculator` computes `calculatePacing` over the
snapshot's `currentlyReading` list without any state update. -/
def renderPacingOp (todayMs : ℤ) (s : UIState) :
    Option PacingResult × UIState :=
  match s.snapshot with
  | none => (none, s)
  | some snap =>
    (calculatePacing
      (snap.currentlyReading.find? (fun b => b.title = s.pacingSelectedBook))
      s.pacingCurrentPage s.pacingGoalDate todayMs, s)

/-- Rendering `AnnualReadingForecast` computes the forecast from the
snapshot without any state update. -/
def renderForecastOp (currentMonth : ℕ) (s : UIState) :
    Option ForecastResult × UIState :=
  match s.snapshot with
  | none => (none, s)
  | some snap =>
    (some (annualReadingForecast currentMonth snap.totals snap.lastYearTotals), s)

/-! ## Shared lemmas about `calculatePacing` -/

theorem calculatePacing_eq_some (book : Book) (p : ℚ) (goalMs todayMs : ℤ)
    (h1 : 0 < p) (h2 : p < book.totalPages)
    (h3 : 0 < daysRemainingOf goalMs todayMs) :
    calculatePacing (some book) p (some goalMs) todayMs =
      some { daysRemaining := daysRemainingOf goalMs todayMs
             pagesRemaining := book.totalPages - p
             pagesPerDay :=
               (book.totalPages - p) / ((daysRemainingOf goalMs todayMs : ℤ) : ℚ)
             isRealistic :=
               decide ((book.totalPages - p) /
                 ((daysRemainingOf goalMs todayMs : ℤ) : ℚ) ≤ 50)
             isEasy :=
               decide ((book.totalPages - p) /
                 ((daysRemainingOf goalMs todayMs : ℤ) : ℚ) ≤ 20) } := by
  have hcond : ¬(p ≤ 0 ∨ book.totalPages ≤ p) := by
    push_neg
    exact ⟨h1, h2⟩
  have hd : ¬(daysRemainingOf goalMs todayMs ≤ 0) := not_le.2 h3
  simp only [calculatePacing, if_neg hcond, if_neg hd]

theorem calculatePacing_some_inv (bd : Option Book) (p : ℚ) (goal : Option ℤ)
    (today : ℤ) (res : PacingResult)
    (h : calculatePacing bd p goal today = some res) :
    0 < res.daysRemaining ∧
      res.pagesPerDay = res.pagesRemaining / ((res.daysRemaining : ℤ) : ℚ) ∧
      res.isEasy = decide (res.pagesPerDay ≤ 20) ∧
      res.isRealistic = decide (res.pagesPerDay ≤ 50) := by
  match bd with
  | none => simp [calculatePacing] at h
  | some book =>
    match goal with
    | none =>
      simp only [calculatePacing] at h
      split at h
      · exact absurd h (by simp)
      · exact absurd h (by simp)
    | some goalMs =>
      simp only [calculatePacing] at h
      split at h
      · exact absurd h (by simp)
      · split at h
        · exact absurd h (by simp)
        · rename_i hcond hd
          obtain rfl := Option.some.inj h
          exact ⟨lt_of_not_le hd, rfl, rfl, rfl⟩

/-! ## Claim theorems for the pacing calculator -/

/-- Claim C1: for every selected book with total pages `T`, every current
page `p` with `0 < p < T`, and every computed days-remaining `d > 0`, the
pacing calculator returns a result whose `pagesRemaining` equals `T - p`
and whose `pagesPerDay` equals `(T - p) / d` (exact rational division). -/
theorem pacing_result_values (book : Book) (p : ℚ) (goalMs todayMs : ℤ)
    (h1 : 0 < p) (h2 : p < book.totalPages)
    (h3 : 0 < daysRemainingOf goalMs todayMs) :
    ∃ res, calculatePacing (some book) p (some goalMs) todayMs = some res ∧
      res.daysRemaining = daysRemainingOf goalMs todayMs ∧
      res.pagesRemaining = book.totalPages - p ∧
      res.pagesPerDay =
        (book.totalPages - p) / ((daysRemainingOf goalMs todayMs : ℤ) : ℚ) :=
  ⟨_, calculatePacing_eq_some book p goalMs todayMs h1 h2 h3, rfl, rfl, rfl⟩

/-- Witness for claim C1: a 400-page book at page 100 with ten days
remaining (goal ten days from epoch, today at epoch). -/
theorem pacing_result_values_witness :
    ∃ res,
      calculatePacing (some { title := "t", author := "a", totalPages := 400 })
        100 (some 864000000) 0 = some res ∧
      res.daysRemaining = 10 ∧ res.pagesRemaining = 300 ∧
      res.pagesPerDay = 30 := by
  have hd : daysRemainingOf 864000000 0 = 10 := by
    simp only [daysRemainingOf, jsCeil_eq, msPerDay]
    norm_num
  obtain ⟨res, hres, h4, h5, h6⟩ :=
    pacing_result_values { title := "t", author := "a", totalPages := 400 }
      100 864000000 0 (by norm_num) (by norm_num) (by rw [hd]; norm_num)
  refine ⟨res, hres, ?_, ?_, ?_⟩
  · rw [h4, hd]
  · rw [h5]; norm_num
  · rw [h6, hd]; norm_num

/-- Claim C2: the pacing calculator returns no result (null) if and only
if no book is selected, or `currentPage ≤ 0`, or
`currentPage ≥ totalPages`, or no goal date is obtainable, or the
computed `daysRemaining ≤ 0`; in particular, for `totalPages = 400` and
`currentPage = 0` it returns no result. -/
theorem pacing_none_iff (bd : Option Book) (p : ℚ) (goal : Option ℤ)
    (today : ℤ) :
    (calculatePacing bd p goal today = none ↔
      bd = none ∨ ∃ book, bd = some book ∧
        (p ≤ 0 ∨ book.totalPages ≤ p ∨ goal = none ∨
          ∃ g, goal = some g ∧ daysRemainingOf g today ≤ 0)) ∧
    (∀ book : Book, book.totalPages = 400 →
      calculatePacing (some book) 0 goal today = none) := by
  constructor
  · match bd, goal with
    | none, _ => simp [calculatePacing]
    | some book, none =>
      simp only [calculatePacing]
      split
      · simp_all
      · simp_all
    | some book, some g =>
      simp only [calculatePacing]
      split
      · rename_i hcond
        simp only [true_iff]
        right
        exact ⟨book, rfl, by tauto⟩
      · split
        · rename_i hcond hd
          simp only [true_iff]
          right
          refine ⟨book, rfl, ?_⟩
          right; right; right
          exact ⟨g, rfl, hd⟩
        · rename_i hcond hd
          simp only [reduceCtorEq, false_iff, not_or]
          refine ⟨by simp, ?_⟩
          rintro ⟨book', hbook', hcase⟩
          obtain rfl := Option.some.inj hbook'
          rcases hcase with h | h | h | ⟨g', hg', hle⟩
          · exact hcond (Or.inl h)
          · exact hcond (Or.inr h)
          · exact h.elim
          · exact hd (Option.some.inj hg' ▸ hle)
  · intro book hT
    simp [calculatePacing]

/-- Witness for claim C2: a 400-page book at page 0 with a goal at epoch
gives no result; and a pacing run with no book selected is `none`. -/
theorem pacing_none_iff_witness :
    calculatePacing (some { title := "t", author := "a", totalPages := 400 })
      0 (some 0) 0 = none ∧
    calculatePacing none 5 (some 0) 0 = none := by
  constructor
  · exact (pacing_none_iff
      (some { title := "t", author := "a", totalPages := 400 }) 0 (some 0) 0).2
      { title := "t", author := "a", totalPages := 400 } rfl
  · exact (pacing_none_iff none 5 (some 0) 0).1.mpr (Or.inl rfl)

/-- Claim C3: for every non-null pacing result, the displayed band is
determined solely by `pagesPerDay` with fixed thresholds: easy when
`pagesPerDay ≤ 20`, challenging when `20 < pagesPerDay ≤ 50`, ambitious
when `pagesPerDay > 50`. -/
theorem pacing_band_thresholds (bd : Option Book) (p : ℚ) (goal : Option ℤ)
    (today : ℤ) (res : PacingResult)
    (h : calculatePacing bd p goal today = some res) :
    (bandOf res = .easy ↔ res.pagesPerDay ≤ 20) ∧
    (bandOf res = .challenging ↔
      20 < res.pagesPerDay ∧ res.pagesPerDay ≤ 50) ∧
    (bandOf res = .ambitious ↔ 50 < res.pagesPerDay) := by
  obtain ⟨-, -, hE, hR⟩ := calculatePacing_some_inv bd p goal today res h
  rcases le_or_lt res.pagesPerDay 20 with h20 | h20
  · have h50 : res.pagesPerDay ≤ 50 := h20.trans (by norm_num)
    simp [bandOf, hE, hR, h20, h50, not_lt.2 h20, not_lt.2 h50]
  · rcases le_or_lt res.pagesPerDay 50 with h50 | h50
    · simp [bandOf, hE, hR, not_le.2 h20, h20, h50, not_lt.2 h50]
    · simp [bandOf, hE, hR, not_le.2 h20, not_le.2 h50, h20, h50]

/-- Witness for claim C3: the 400-page book at page 100 with ten days
remaining needs 30 pages/day, which lands in the challenging band. -/
theorem pacing_band_thresholds_witness :
    ∃ res,
      calculatePacing (some { title := "t", author := "a", totalPages := 400 })
        100 (some 864000000) 0 = some res ∧
      bandOf res = .challenging := by
  have hd : daysRemainingOf 864000000 0 = 10 := by
    simp only [daysRemainingOf, jsCeil_eq, msPerDay]
    norm_num
  have h := calculatePacing_eq_some
    { title := "t", author := "a", totalPages := 400 } 100 864000000 0
    (by norm_num) (by norm_num) (by rw [hd]; norm_num)
  refine ⟨_, h, ?_⟩
  apply ((pacing_band_thresholds _ _ _ _ _ h).2.1).mpr
  constructor
  · show (20 : ℚ) < (400 - 100) / ((daysRemainingOf 864000000 0 : ℤ) : ℚ)
    rw [hd]
    norm_num
  · show (400 - 100 : ℚ) / ((daysRemainingOf 864000000 0 : ℤ) : ℚ) ≤ 50
    rw [hd]
    norm_num

/-! ## Shared lemmas about `annualReadingForecast` -/

theorem forecast_values_succ (m : ℕ) (totals : Totals) (ly : Option Totals)
    (h1 : 1 ≤ m) :
    (annualReadingForecast (m + 1) totals ly).booksPerMonth =
      totals.books / (m : ℚ) ∧
    (annualReadingForecast (m + 1) totals ly).pagesPerMonth =
      totals.pages / (m : ℚ) ∧
    (annualReadingForecast (m + 1) totals ly).estimatedBooks =
      jsRound (totals.books + totals.books / (m : ℚ) * (11 - (m : ℚ))) ∧
    (annualReadingForecast (m + 1) totals ly).estimatedPages =
      jsRound (totals.pages + totals.pages / (m : ℚ) * (11 - (m : ℚ))) := by
  have hne : m + 1 ≠ 1 := by omega
  have hm : ((m + 1 : ℕ) : ℚ) - 1 = (m : ℚ) := by push_cast; ring
  have hpos : (0 : ℚ) < (m : ℚ) := by exact_mod_cast h1
  have hrem : 12 - ((m + 1 : ℕ) : ℚ) = 11 - (m : ℚ) := by push_cast; ring
  simp only [annualReadingForecast, if_neg hne, hm, hrem, if_pos hpos]
  refine ⟨?_, ?_, ?_, ?_⟩ <;> first | rfl | trivial

/-! ## Claim theorems for the annual reading forecast -/

/-- Claim C4, amended: outside January, for `m` completed months with
`1 ≤ m ≤ 11` (the component runs in month `m + 1`), the run-rate is
`totals ÷ m`, and the year-end estimate is
`round(totals + run-rate × (11 − m))` — the months remaining after the
in-progress month, not `12 − m` as claimed. -/
theorem forecast_run_rate (m : ℕ) (totals : Totals) (ly : Option Totals)
    (h1 : 1 ≤ m) (_h2 : m ≤ 11) :
    (annualReadingForecast (m + 1) totals ly).booksPerMonth =
      totals.books / (m : ℚ) ∧
    (annualReadingForecast (m + 1) totals ly).pagesPerMonth =
      totals.pages / (m : ℚ) ∧
    (annualReadingForecast (m + 1) totals ly).estimatedBooks =
      jsRound (totals.books + totals.books / (m : ℚ) * (11 - (m : ℚ))) ∧
    (annualReadingForecast (m + 1) totals ly).estimatedPages =
      jsRound (totals.pages + totals.pages / (m : ℚ) * (11 - (m : ℚ))) :=
  forecast_values_succ m totals ly h1

/-- Witness for the amended claim C4: six completed months and 30 books
give a run-rate of 5 books/month and a year-end estimate of 55 books. -/
theorem forecast_run_rate_witness :
    (annualReadingForecast 7 { books := 30, pages := 9600 } none).booksPerMonth
      = 5 ∧
    (annualReadingForecast 7 { books := 30, pages := 9600 } none).estimatedBooks
      = 55 := by
  obtain ⟨hb, -, he, -⟩ :=
    forecast_run_rate 6 { books := 30, pages := 9600 } none
      (by norm_num) (by norm_num)
  refine ⟨?_, ?_⟩
  · rw [show (7 : ℕ) = 6 + 1 from rfl, hb]
    norm_num
  · rw [show (7 : ℕ) = 6 + 1 from rfl, he, jsRound_eq]
    norm_num

/-- Counterexample for claim C4 as stated: with `completedMonths = 6` and
`totals.books = 30`, the code estimates `round(30 + 5 × 5) = 55` books by
year-end, not `round(30 + 5 × 6) = 60`. -/
theorem forecast_run_rate_cex :
    (annualReadingForecast 7 { books := 30, pages := 9600 } none).booksPerMonth
      = 5 ∧
    (annualReadingForecast 7 { books := 30, pages := 9600 } none).estimatedBooks
      = 55 ∧
    (annualReadingForecast 7 { books := 30, pages := 9600 } none).estimatedBooks
      ≠ 60 := by
  obtain ⟨hb, -, he, -⟩ :=
    forecast_values_succ 6 { books := 30, pages := 9600 } none (by norm_num)
  have h5 : (annualReadingForecast 7 { books := 30, pages := 9600 }
      none).booksPerMonth = 5 := by
    rw [show (7 : ℕ) = 6 + 1 from rfl, hb]
    norm_num
  have h55 : (annualReadingForecast 7 { books := 30, pages := 9600 }
      none).estimatedBooks = 55 := by
    rw [show (7 : ℕ) = 6 + 1 from rfl, he, jsRound_eq]
    norm_num
  exact ⟨h5, h55, by rw [h55]; norm_num⟩

/-- Claim C5: in January (zero completed months) the forecast uses last
year's totals ÷ 12 as the run-rate and estimates
`round(run-rate × 12)`; for `lastYearTotals.books = 52` the estimate is
52 books. -/
theorem forecast_january (totals : Totals) (ly : Totals) :
    (annualReadingForecast 1 totals (some ly)).booksPerMonth =
      ly.books / 12 ∧
    (annualReadingForecast 1 totals (some ly)).pagesPerMonth =
      ly.pages / 12 ∧
    (annualReadingForecast 1 totals (some ly)).estimatedBooks =
      jsRound (ly.books / 12 * 12) ∧
    (annualReadingForecast 1 totals (some ly)).estimatedPages =
      jsRound (ly.pages / 12 * 12) ∧
    (ly.books = 52 →
      (annualReadingForecast 1 totals (some ly)).estimatedBooks = 52) := by
  have hfields :
      (annualReadingForecast 1 totals (some ly)).booksPerMonth =
        ly.books / 12 ∧
      (annualReadingForecast 1 totals (some ly)).pagesPerMonth =
        ly.pages / 12 ∧
      (annualReadingForecast 1 totals (some ly)).estimatedBooks =
        jsRound (ly.books / 12 * 12) ∧
      (annualReadingForecast 1 totals (some ly)).estimatedPages =
        jsRound (ly.pages / 12 * 12) := by
    simp only [annualReadingForecast, if_pos rfl, Option.map_some, Option.getD_some]
    exact ⟨rfl, rfl, rfl, rfl⟩
  obtain ⟨hb, hp, heb, hep⟩ := hfields
  refine ⟨hb, hp, heb, hep, fun h52 => ?_⟩
  rw [heb, h52, jsRound_eq]
  norm_num

/-- Witness for claim C5: with last year's totals of 52 books the
January forecast estimates exactly 52 books. -/
theorem forecast_january_witness :
    (annualReadingForecast 1 { books := 43, pages := 13760 }
      (some { books := 52, pages := 16640 })).booksPerMonth = 52 / 12 ∧
    (annualReadingForecast 1 { books := 43, pages := 13760 }
      (some { books := 52, pages := 16640 })).estimatedBooks = 52 := by
  obtain ⟨hb, -, -, -, h52⟩ :=
    forecast_january { books := 43, pages := 13760 }
      { books := 52, pages := 16640 }
  exact ⟨hb, h52 rfl⟩

/-- Claim C10: the forecast's cross-check divisor equals
`totals.pages ÷ totals.books` when `totals.books > 0` and `totals.pages`
is nonzero, and 320 otherwise; for nonnegative page totals it is always
strictly positive, so the books-from-pages division never divides by
zero. -/
theorem forecast_average_book_length (cm : ℕ) (totals : Totals)
    (ly : Option Totals) (hpages : 0 ≤ totals.pages) :
    (annualReadingForecast cm totals ly).averageBookLength =
      (if 0 < totals.books ∧ totals.pages ≠ 0 then
        totals.pages / totals.books else 320) ∧
    0 < (annualReadingForecast cm totals ly).averageBookLength := by
  have havg : (annualReadingForecast cm totals ly).averageBookLength =
      averageBookLengthOf totals := by
    by_cases h : cm = 1 <;> simp [annualReadingForecast, h]
  rw [havg, averageBookLengthOf]
  refine ⟨rfl, ?_⟩
  split_ifs with h
  · exact div_pos (lt_of_le_of_ne hpages (Ne.symm h.2)) h.1
  · norm_num

/-- Witness for claim C10: the mock totals give a strictly positive
average book length of `13760 / 43 = 320`. -/
theorem forecast_average_book_length_witness :
    (annualReadingForecast 7 { books := 43, pages := 13760 }
      none).averageBookLength = 13760 / 43 ∧
    0 < (annualReadingForecast 7 { books := 43, pages := 13760 }
      none).averageBookLength := by
  obtain ⟨heq, hpos⟩ :=
    forecast_average_book_length 7 { books := 43, pages := 13760 } none
      (by norm_num)
  refine ⟨?_, hpos⟩
  rw [heq, if_pos]
  norm_num

/-! ## Claim theorem for the TBR randomizer -/

/-- Claim C6: for a TBR list of length `N > 0` the randomizer selects
index `⌊r × N⌋` for a draw `r ∈ [0, 1)`, the index is always in range,
and each index `i < N` is hit exactly for `r ∈ [i/N, (i+1)/N)`, an
interval of length `1/N`, so all entries are equally likely under a
uniform draw; for an empty list the selection state is unchanged. -/
theorem tbr_randomizer_uniform (r : ℚ) (l : List TBRBook)
    (sel : Option TBRBook) (h0 : 0 ≤ r) (h1 : r < 1) :
    (l.length = 0 → pickRandomBook r l sel = sel) ∧
    (0 < l.length →
      (jsFloor (r * (l.length : ℚ))).toNat < l.length ∧
      pickRandomBook r l sel = l[(jsFloor (r * (l.length : ℚ))).toNat]? ∧
      (l[(jsFloor (r * (l.length : ℚ))).toNat]?).isSome = true) ∧
    (∀ i : ℕ, i < l.length →
      ((jsFloor (r * (l.length : ℚ))).toNat = i ↔
        (i : ℚ) / (l.length : ℚ) ≤ r ∧ r < ((i : ℚ) + 1) / (l.length : ℚ))) ∧
    (∀ i : ℕ, i < l.length →
      ((i : ℚ) + 1) / (l.length : ℚ) - (i : ℚ) / (l.length : ℚ) =
        1 / (l.length : ℚ)) := by
  refine ⟨fun hnil => by simp [pickRandomBook, hnil], ?_, ?_, ?_⟩
  · intro hN
    have hNQ : (0 : ℚ) < (l.length : ℚ) := by exact_mod_cast hN
    have hnn : 0 ≤ ⌊r * (l.length : ℚ)⌋ :=
      Int.floor_nonneg.2 (mul_nonneg h0 hNQ.le)
    have hup : ⌊r * (l.length : ℚ)⌋ < (l.length : ℤ) := by
      apply Int.floor_lt.2
      push_cast
      calc r * (l.length : ℚ) < 1 * (l.length : ℚ) :=
            mul_lt_mul_of_pos_right h1 hNQ
        _ = (l.length : ℚ) := one_mul _
    have hlt : (jsFloor (r * (l.length : ℚ))).toNat < l.length := by
      rw [jsFloor_eq]
      omega
    refine ⟨hlt, ?_, ?_⟩
    · simp [pickRandomBook, Nat.pos_iff_ne_zero.mp hN]
    · simp [List.getElem?_eq_getElem hlt]
  · intro i hi
    have hNQ : (0 : ℚ) < (l.length : ℚ) := by
      exact_mod_cast Nat.lt_of_le_of_lt (Nat.zero_le i) hi
    constructor
    · intro hIdx
      rw [jsFloor_eq] at hIdx
      have hnn : 0 ≤ ⌊r * (l.length : ℚ)⌋ :=
        Int.floor_nonneg.2 (mul_nonneg h0 hNQ.le)
      have hfl : ⌊r * (l.length : ℚ)⌋ = (i : ℤ) := by omega
      obtain ⟨hlo, hhi⟩ := Int.floor_eq_iff.1 hfl
      constructor
      · rw [div_le_iff₀ hNQ]
        exact_mod_cast hlo
      · rw [lt_div_iff₀ hNQ]
        push_cast at hhi ⊢
        linarith
    · rintro ⟨hlo, hhi⟩
      rw [jsFloor_eq]
      have hfl : ⌊r * (l.length : ℚ)⌋ = (i : ℤ) := by
        apply Int.floor_eq_iff.2
        constructor
        · push_cast
          exact (div_le_iff₀ hNQ).1 hlo
        · push_cast
          have := (lt_div_iff₀ hNQ).1 hhi
          linarith
      omega
  · intro i hi
    rw [div_sub_div_same]
    norm_num

/-- Witness for claim C6: on the twelve-element mock TBR list a draw of
`r = 1/2` selects index 6, "The Silent Patient". -/
theorem tbr_randomizer_uniform_witness :
    pickRandomBook (1/2) mockData.tbrList none =
      some { title := "The Silent Patient", author := "Alex Michaelides",
             genre := "Thriller" } ∧
    (jsFloor ((1/2 : ℚ) * (mockData.tbrList.length : ℚ))).toNat = 6 := by
  have hlen : mockData.tbrList.length = 12 := by rfl
  have hIdx : (jsFloor ((1/2 : ℚ) * (mockData.tbrList.length : ℚ))).toNat = 6 := by
    rw [hlen, jsFloor_eq]
    have h6 : ⌊(1/2 : ℚ) * (12 : ℕ)⌋ = 6 := by norm_num
    rw [h6]
    rfl
  obtain ⟨-, h2, -, -⟩ :=
    tbr_randomizer_uniform (1/2) mockData.tbrList none
      (by norm_num) (by norm_num)
  obtain ⟨-, heq, -⟩ := h2 (by rw [hlen]; norm_num)
  refine ⟨?_, hIdx⟩
  rw [heq, hIdx]
  rfl

/-! ## Claim theorems for the data supplier -/

/-- A filesystem holding a parsed snapshot only at the parent-directory
data path, variant B's third candidate. -/
def fsOnlyParent : FileSystem := fun p =>
  if p = parentDataPath then
    .parsed { mockData with totals := { books := 1, pages := 1 } }
  else .absent

/-- A filesystem whose only present file, at the public path, fails to
read or parse. -/
def fsMalformedPublic : FileSystem := fun p =>
  if p = publicPath then .malformed else .absent

/-- Counterexample for claim C7 as stated: with no file at the public or
data directory but a parseable file at variant B's third candidate
`../data`, variant B returns that file's contents — neither a 404 nor
the fixed fallback snapshot, and from a path outside the two candidates
the claim enumerates. -/
theorem api_get_priority_cex :
    fsOnlyParent publicPath = .absent ∧
    fsOnlyParent dataPath = .absent ∧
    getB fsOnlyParent =
      .jsonData { mockData with totals := { books := 1, pages := 1 } } 200 ∧
    ({ mockData with totals := { books := 1, pages := 1 } } : Snapshot) ≠
      mockData ∧
    statusOf (getB fsOnlyParent) ≠ 404 := by
  refine ⟨by decide, by decide, by decide, ?_, by decide⟩
  intro h
  have : (1 : ℚ) = 43 := congrArg (fun s => s.totals.books) h
  norm_num at this

/-- Claim C7, amended: both GET variants check their candidate paths in
fixed priority order — variant A the public path then the data path,
variant B those two and then a parent-directory data path — and return
the parsed contents of the first existing file; when none of its
candidates exists, variant A responds 404 and variant B responds the
fixed hardcoded fallback snapshot. -/
theorem api_get_priority (fs : FileSystem) :
    pathsA = [publicPath, dataPath] ∧
    possiblePaths = [publicPath, dataPath, parentDataPath] ∧
    (∀ d, tryPaths fs pathsA = some (.parsed d) →
      getA fs = .jsonData d 200) ∧
    (∀ d, tryPaths fs possiblePaths = some (.parsed d) →
      getB fs = .jsonData d 200) ∧
    (tryPaths fs pathsA = none →
      getA fs = .jsonError "No reading data found" 404) ∧
    (tryPaths fs possiblePaths = none →
      getB fs = .jsonData mockData 200) := by
  refine ⟨rfl, rfl, ?_, ?_, ?_, ?_⟩
  · intro d h
    rcases hpub : fs publicPath with _ | _ | d1 <;>
      rcases hdat : fs dataPath with _ | _ | d2 <;>
        simp_all [pathsA, tryPaths, getA]
  · intro d h
    rcases hpub : fs publicPath with _ | _ | d1 <;>
      rcases hdat : fs dataPath with _ | _ | d2 <;>
        rcases hpar : fs parentDataPath with _ | _ | d3 <;>
          simp_all [possiblePaths, tryPaths, getB]
  · intro h
    rcases hpub : fs publicPath with _ | _ | d1 <;>
      rcases hdat : fs dataPath with _ | _ | d2 <;>
        simp_all [pathsA, tryPaths, getA]
  · intro h
    rcases hpub : fs publicPath with _ | _ | d1 <;>
      rcases hdat : fs dataPath with _ | _ | d2 <;>
        rcases hpar : fs parentDataPath with _ | _ | d3 <;>
          simp_all [possiblePaths, tryPaths, getB]

/-- Witness for the amended claim C7: on an empty filesystem variant A
responds 404 and variant B responds the fallback snapshot. -/
theorem api_get_priority_witness :
    getA (fun _ => .absent) = .jsonError "No reading data found" 404 ∧
    getB (fun _ => .absent) = .jsonData mockData 200 := by
  obtain ⟨-, -, -, -, h404, hmock⟩ := api_get_priority (fun _ => .absent)
  exact ⟨h404 (by decide), hmock (by decide)⟩

/-- Counterexample for claim C8 as stated: with a malformed file at the
public path, variant B responds the mock fallback with status 200, not a
500-equivalent server error. -/
theorem api_parse_error_cex :
    fsMalformedPublic publicPath = .malformed ∧
    getB fsMalformedPublic = .jsonData mockData 200 ∧
    statusOf (getB fsMalformedPublic) ≠ 500 := by
  exact ⟨by decide, by decide, by decide⟩

/-- Claim C8, amended: when the first existing backing file fails to
read or parse, variant A responds with a 500 server error, while
variant B falls back to the hardcoded mock payload with status 200. -/
theorem api_parse_error (fs : FileSystem) :
    (tryPaths fs pathsA = some .malformed →
      getA fs = .jsonError "Failed to load reading data" 500) ∧
    (tryPaths fs possiblePaths = some .malformed →
      getB fs = .jsonData mockData 200) := by
  constructor
  · intro h
    rcases hpub : fs publicPath with _ | _ | d1 <;>
      rcases hdat : fs dataPath with _ | _ | d2 <;>
        simp_all [pathsA, tryPaths, getA]
  · intro h
    rcases hpub : fs publicPath with _ | _ | d1 <;>
      rcases hdat : fs dataPath with _ | _ | d2 <;>
        rcases hpar : fs parentDataPath with _ | _ | d3 <;>
          simp_all [possiblePaths, tryPaths, getB]

/-- Witness for the amended claim C8: a malformed public file makes
variant A respond 500 and variant B respond the mock fallback. -/
theorem api_parse_error_witness :
    getA fsMalformedPublic = .jsonError "Failed to load reading data" 500 ∧
    getB fsMalformedPublic = .jsonData mockData 200 := by
  obtain ⟨h500, hmock⟩ := api_parse_error fsMalformedPublic
  exact ⟨h500 (by decide), hmock (by decide)⟩

/-! ## Claim theorem for snapshot immutability -/

/-- Claim C9: every operation that consumes the fetched snapshot —
selecting a book, editing the current page or goal date, the TBR spin,
and rendering the pacing calculator or the forecast — leaves the
snapshot held in state unchanged. -/
theorem snapshot_immutable (title : String) (p : ℚ) (g : Option ℤ)
    (r : ℚ) (todayMs : ℤ) (cm : ℕ) (s : UIState) :
    (selectBookOp title s).snapshot = s.snapshot ∧
    (setCurrentPageOp p s).snapshot = s.snapshot ∧
    (setGoalDateOp g s).snapshot = s.snapshot ∧
    (spinTBROp r s).snapshot = s.snapshot ∧
    (renderPacingOp todayMs s).2 = s ∧
    (renderForecastOp cm s).2 = s := by
  refine ⟨rfl, rfl, rfl, ?_, ?_, ?_⟩ <;>
    rcases hsnap : s.snapshot with _ | snap <;>
      simp [spinTBROp, renderPacingOp, renderForecastOp, hsnap]

end Florilegium
